import Mathlib

/-!
Verification development for the gst-switch python client core
(src/python-api/gstswitch/controller.py).

The development shallowly embeds the Controller class:
  * Python exceptions become the inductive PyError; a try/except block
    becomes an explicit match on the Except result.
  * A GVariant reply from the bus transport becomes Option (List alpha):
    none models a reply object without an unpack method (probing it raises
    AttributeError), some xs models a reply whose unpack() returns the
    tuple xs; indexing [0] on an empty tuple raises IndexError.
  * ast.literal_eval is modelled by an executable recursive-descent parser
    over the Python literal grammar: integers (with unary sign, no leading
    zeros), decimal floats, quoted strings (without escape sequences),
    True, False, None, tuples (including the parenthesised-expression,
    bare-top-level and singleton-with-trailing-comma forms), lists, dicts
    and sets, with arbitrary whitespace between tokens.  Numeric forms
    with exponents or non-decimal bases, digit underscores, complex
    numbers, bytes, Ellipsis, escape sequences and implicit string
    concatenation are outside the modelled grammar.
  * The connection lifecycle becomes an explicit state (a counter of
    handed-out connection identities) plus a trace of transport events
    (connect, signal subscription, remote invocations).
  * The six callback registries become lists of Callback values; a
    callback is an identifier together with a behaviour mapping the
    dispatched arguments to either normal return or a raised error.
-/

namespace GstSwitch

/-- Python exception kinds raised or caught by the controller code.
synError models SyntaxError. -/
inductive PyError
  | attributeError
  | indexError
  | typeError
  | keyError
  | valueError (msg : String)
  | synError
  | connectionReturnError (msg : String)
deriving DecidableEq, Repr

/-- Values produced by the literal evaluator: Python literal values.  A
float is kept as its sign, integer part and fractional digit run, which
determines its int() truncation; a dict is its entry list in source
order and a set its element list in insertion order. -/
inductive PyLit
  | int (n : Int)
  | bool (b : Bool)
  | none
  | float (neg : Bool) (ip : Nat) (frac : List Char)
  | str (s : String)
  | tuple (xs : List PyLit)
  | list (xs : List PyLit)
  | dict (es : List (PyLit × PyLit))
  | set (xs : List PyLit)

/-- Skip the whitespace characters Python tokenisation skips inside an
expression. -/
def skipWs : List Char → List Char
  | c :: cs =>
    if c = ' ' ∨ c = '\t' ∨ c = '\n' ∨ c = '\r' then skipWs cs else c :: cs
  | [] => []

/-- Split a leading run of decimal digits from the rest of the input. -/
def takeDigits : List Char → List Char × List Char
  | [] => ([], [])
  | c :: cs =>
    if c.isDigit then
      let (ds, rest) := takeDigits cs
      (c :: ds, rest)
    else ([], c :: cs)

/-- Numeric value of a digit run. -/
def digitsVal (ds : List Char) : Nat :=
  ds.foldl (fun acc c => acc * 10 + (c.toNat - 48)) 0

/-- The single-quote character, written by code point. -/
def squote : Char := Char.ofNat 39

/-- Characters Python identifiers are made of. -/
def isIdentChar (c : Char) : Bool :=
  c.isAlpha || c = '_' || c.isDigit

/-- Split a leading identifier run from the rest of the input. -/
def takeIdent : List Char → List Char × List Char
  | [] => ([], [])
  | c :: cs =>
    if isIdentChar c then
      let (ds, rest) := takeIdent cs
      (c :: ds, rest)
    else ([], c :: cs)

/-- Read the body of a quoted string up to the closing quote q; a
backslash or a missing closing quote is outside the modelled grammar. -/
def takeStr (q : Char) : List Char → Option (List Char × List Char)
  | [] => Option.none
  | c :: cs =>
    if c = q then some ([], cs)
    else if c = '\\' then Option.none
    else
      match takeStr q cs with
      | some (ds, rest) => some (c :: ds, rest)
      | Option.none => Option.none

mutual

/-- Parse one literal expression, fuelled recursive descent over the
grammar accepted by ast.literal_eval as described in the header: signed
numbers, quoted strings, True, False, None, tuples, lists, dicts and
sets.  A unary sign on a non-numeric operand is the malformed-node
ValueError of the real evaluator. -/
def parseExpr : Nat → List Char → Except PyError (PyLit × List Char)
  | 0, _ => .error .synError
  | fuel + 1, cs =>
    match skipWs cs with
    | [] => .error .synError
    | '-' :: rest => do
      let (v, rest2) ← parseExpr fuel rest
      match v with
      | .int n => .ok (.int (-n), rest2)
      | .float neg ip frac => .ok (.float (!neg) ip frac, rest2)
      | _ => .error (.valueError "malformed node or string")
    | '+' :: rest => do
      let (v, rest2) ← parseExpr fuel rest
      match v with
      | .int n => .ok (.int n, rest2)
      | .float neg ip frac => .ok (.float neg ip frac, rest2)
      | _ => .error (.valueError "malformed node or string")
    | '(' :: rest =>
      (match skipWs rest with
      | ')' :: rest2 => .ok (.tuple [], rest2)
      | cs2 => do
        let (e, rest2) ← parseExpr fuel cs2
        match skipWs rest2 with
        | ')' :: rest3 => .ok (e, rest3)
        | ',' :: rest3 =>
          (match skipWs rest3 with
          | ')' :: rest4 => .ok (.tuple [e], rest4)
          | _ => do
            let (xs, rest4) ← parseItems fuel rest3 ')'
            .ok (.tuple (e :: xs), rest4))
        | _ => .error .synError)
    | '[' :: rest =>
      (match skipWs rest with
      | ']' :: rest2 => .ok (.list [], rest2)
      | cs2 => do
        let (xs, rest2) ← parseItems fuel cs2 ']'
        .ok (.list xs, rest2))
    | '{' :: rest =>
      (match skipWs rest with
      | '}' :: rest2 => .ok (.dict [], rest2)
      | cs2 => do
        let (k, rest2) ← parseExpr fuel cs2
        match skipWs rest2 with
        | ':' :: rest3 => do
          let (v, rest4) ← parseExpr fuel rest3
          (match skipWs rest4 with
          | '}' :: rest5 => .ok (.dict [(k, v)], rest5)
          | ',' :: rest5 =>
            (match skipWs rest5 with
            | '}' :: rest6 => .ok (.dict [(k, v)], rest6)
            | cs3 => do
              let (es, rest6) ← parseDictRest fuel cs3
              .ok (.dict ((k, v) :: es), rest6))
          | _ => .error .synError)
        | '}' :: rest3 => .ok (.set [k], rest3)
        | ',' :: rest3 =>
          (match skipWs rest3 with
          | '}' :: rest4 => .ok (.set [k], rest4)
          | _ => do
            let (xs, rest4) ← parseItems fuel rest3 '}'
            .ok (.set (k :: xs), rest4))
        | _ => .error .synError)
    | c :: rest =>
      if c = '"' ∨ c = squote then
        match takeStr c rest with
        | some (ds, rest2) => .ok (.str (String.mk ds), rest2)
        | Option.none => .error .synError
      else if c = '.' then
        (match takeDigits rest with
        | ([], _) => .error .synError
        | (ds, rest2) => .ok (.float false 0 ds, rest2))
      else if c.isDigit then
        (match takeDigits (c :: rest) with
        | (ds, '.' :: rest2) =>
          let (fs, rest3) := takeDigits rest2
          .ok (.float false (digitsVal ds) fs, rest3)
        | (ds, rest2) =>
          if ds.length > 1 ∧ ds.headD '0' = '0' then .error .synError
          else .ok (.int (digitsVal ds), rest2))
      else if isIdentChar c then
        let (ds, rest2) := takeIdent (c :: rest)
        if String.mk ds = "True" then .ok (.bool true, rest2)
        else if String.mk ds = "False" then .ok (.bool false, rest2)
        else if String.mk ds = "None" then .ok (.none, rest2)
        else .error .synError
      else .error .synError

/-- Parse the remaining comma-separated items of a bracketed collection up
to the closing character, allowing one trailing comma. -/
def parseItems : Nat → List Char → Char → Except PyError (List PyLit × List Char)
  | 0, _, _ => .error .synError
  | fuel + 1, cs, close => do
    let (e, rest) ← parseExpr fuel cs
    match skipWs rest with
    | c :: rest2 =>
      if c = close then .ok ([e], rest2)
      else if c = ',' then
        match skipWs rest2 with
        | c2 :: rest3 =>
          if c2 = close then .ok ([e], rest3)
          else do
            let (xs, rest4) ← parseItems fuel rest2 close
            .ok (e :: xs, rest4)
        | [] => .error .synError
      else .error .synError
    | [] => .error .synError

/-- Parse the remaining key-colon-value entries of a dict literal up to
the closing brace, allowing one trailing comma. -/
def parseDictRest : Nat → List Char →
    Except PyError (List (PyLit × PyLit) × List Char)
  | 0, _ => .error .synError
  | fuel + 1, cs => do
    let (k, rest) ← parseExpr fuel cs
    match skipWs rest with
    | ':' :: rest2 => do
      let (v, rest3) ← parseExpr fuel rest2
      (match skipWs rest3 with
      | '}' :: rest4 => .ok ([(k, v)], rest4)
      | ',' :: rest4 =>
        (match skipWs rest4 with
        | '}' :: rest5 => .ok ([(k, v)], rest5)
        | cs3 => do
          let (es, rest5) ← parseDictRest fuel cs3
          .ok ((k, v) :: es, rest5))
      | _ => .error .synError)
    | _ => .error .synError

end

/-- Parse the remaining comma-separated expressions of a bare top-level
tuple, which must exhaust the input, allowing one trailing comma. -/
def parseTopRest : Nat → List Char → Except PyError (List PyLit)
  | 0, _ => .error .synError
  | fuel + 1, cs => do
    let (e, rest) ← parseExpr (cs.length + 1) cs
    match skipWs rest with
    | [] => .ok [e]
    | ',' :: rest2 =>
      (match skipWs rest2 with
      | [] => .ok [e]
      | cs2 => do
        let es ← parseTopRest fuel cs2
        .ok (e :: es))
    | _ => .error .synError

/-- Model of ast.literal_eval on the modelled literal grammar: parse one
expression and require that only whitespace remains, except that a
top-level comma continues a bare (parenthesis-free) tuple. -/
def literal_eval (s : String) : Except PyError PyLit := do
  let cs := s.toList
  let (v, rest) ← parseExpr (cs.length + 1) cs
  match skipWs rest with
  | [] => .ok v
  | ',' :: rest2 =>
    (match skipWs rest2 with
    | [] => .ok (.tuple [v])
    | cs2 => do
      let es ← parseTopRest (cs2.length + 1) cs2
      .ok (.tuple (v :: es)))
  | _ => .error .synError

/-- Python equality of a literal value with the int key 0, as dict lookup
uses it: 0, False and a zero-valued float all compare equal to 0. -/
def pyKeyIsZero : PyLit → Bool
  | .int n => n = 0
  | .bool b => b = false
  | .float _ ip frac => ip = 0 && frac.all (fun c => c = '0')
  | _ => false

/-- Python int(string): strip surrounding whitespace, allow one sign, then
require a non-empty all-digit run (leading zeros allowed at runtime),
else the invalid-literal ValueError.  Digit underscores are outside the
modelled grammar. -/
def strToInt (s : String) : Except PyError Int :=
  let cs := skipWs s.toList
  let (neg, cs1) :=
    match cs with
    | '-' :: r => (true, r)
    | '+' :: r => (false, r)
    | r => (false, r)
  match takeDigits cs1 with
  | ([], _) => .error (.valueError "invalid literal for int with base 10")
  | (ds, rest) =>
    match skipWs rest with
    | [] => .ok (if neg then -(digitsVal ds : Int) else (digitsVal ds : Int))
    | _ => .error (.valueError "invalid literal for int with base 10")

/-- Python indexing value[0]: tuples, lists and strings yield their first
element (an empty one raises IndexError), a dict looks up the key 0
(KeyError when absent), and every other value raises TypeError. -/
def pyIndex0 : PyLit → Except PyError PyLit
  | .tuple [] => .error .indexError
  | .list [] => .error .indexError
  | .tuple (x :: _) => .ok x
  | .list (x :: _) => .ok x
  | .str s =>
    (match s.toList with
    | [] => .error .indexError
    | c :: _ => .ok (.str (String.mk [c])))
  | .dict es =>
    (match es.find? (fun kv => pyKeyIsZero kv.1) with
    | some kv => .ok kv.2
    | Option.none => .error .keyError)
  | _ => .error .typeError

/-- Python int(value): an int is returned unchanged, a bool becomes 0 or
1, a float truncates toward zero, a string is parsed as a decimal
integer, and every other value raises TypeError. -/
def pyToInt : PyLit → Except PyError Int
  | .int n => .ok n
  | .bool b => .ok (if b then 1 else 0)
  | .float neg ip _ => .ok (if neg then -(ip : Int) else (ip : Int))
  | .str s => strToInt s
  | _ => .error .typeError

/-- Python iteration over a literal value: lists, tuples and sets yield
their elements, a dict yields its keys, a string yields its characters as
one-character strings, and numbers, booleans and None raise TypeError.
The real set iteration order is unspecified; the model fixes insertion
order, and no theorem depends on it. -/
def pyElems : PyLit → Except PyError (List PyLit)
  | .tuple xs => .ok xs
  | .list xs => .ok xs
  | .set xs => .ok xs
  | .dict es => .ok (es.map Prod.fst)
  | .str s => .ok (s.toList.map (fun c => .str (String.mk [c])))
  | _ => .error .typeError

/-- The loop body of parse_preview_ports: for each element append
int(element[0]), propagating the first error. -/
def mapIntHeads : List PyLit → Except PyError (List Int)
  | [] => .ok []
  | t :: ts => do
    let x ← pyIndex0 t
    let n ← pyToInt x
    let rest ← mapIntHeads ts
    .ok (n :: rest)

/-- Model of Controller.parse_preview_ports: literal-evaluate the string,
mapping ValueError and SyntaxError to ConnectionReturnError naming the
offending text, then collect int(tupl[0]) over the parsed elements. -/
def parse_preview_ports (res : String) : Except PyError (List Int) :=
  match literal_eval res with
  | .error .synError =>
    .error (.connectionReturnError ("Connection returned invalid values:" ++ res))
  | .error (.valueError _) =>
    .error (.connectionReturnError ("Connection returned invalid values:" ++ res))
  | .error e => .error e
  | .ok v =>
    match pyElems v with
    | .error e => .error e
    | .ok items => mapIntHeads items

/-! Endpoint Descriptor: the four validated addressing fields of the
Controller (attributes _address, _bus_name, _object_path,
_default_interface, all initialised to None in the constructor). -/

/-- A Python object handed to the bus_name setter: None, an int or a str.
This is the value domain over which str() is modelled. -/
inductive PyObj
  | none
  | int (n : Int)
  | str (s : String)
deriving DecidableEq, Repr

/-- Python str() on a PyObj. -/
def pyStr : PyObj → String
  | .none => "None"
  | .int n => toString n
  | .str s => s

/-- Python str.find for a single character: index of the first occurrence,
or -1 when the character does not occur. -/
def pyFind (s : String) (c : Char) : Int :=
  match s.toList.findIdx? (fun a => a = c) with
  | some n => (n : Int)
  | none => -1

/-- Python str.count for a single character. -/
def pyCount (s : String) (c : Char) : Nat :=
  s.toList.countP (fun a => a = c)

/-- The four addressing fields of a Controller, each None before its first
successful assignment. -/
structure EndpointState where
  _address : Option String
  _bus_name : Option String
  _object_path : Option String
  _default_interface : Option String
deriving DecidableEq, Repr

/-- The endpoint state produced by the start of Controller.__init__,
before the constructor runs the four setters. -/
def initEndpoint : EndpointState :=
  { _address := none, _bus_name := none, _object_path := none,
    _default_interface := none }

/-- Model of the address property getter. -/
def get_address (st : EndpointState) : Option String :=
  st._address

/-- Model of the address property setter: a blank address raises
ValueError; otherwise the address is stored exactly when the first colon
occurs at a positive index (adr.find of the colon is strictly greater
than 0), else ValueError.  The pair returns the state the object holds
after the call together with the raised error, if any. -/
def set_address (st : EndpointState) (address : String) :
    EndpointState × Option PyError :=
  if address = "" then
    (st, some (.valueError "Address cannot be blank"))
  else
    let adr := address
    if pyFind adr ':' > 0 then
      ({ st with _address := some adr }, none)
    else
      (st, some (.valueError "Address must follow dbus specifications"))

/-- Model of the bus_name property getter. -/
def get_bus_name (st : EndpointState) : Option String :=
  st._bus_name

/-- Model of the bus_name property setter: None stores absence, any other
value stores its str() form; never raises. -/
def set_bus_name (st : EndpointState) (bus_name : PyObj) :
    EndpointState × Option PyError :=
  match bus_name with
  | .none => ({ st with _bus_name := none }, none)
  | arg => ({ st with _bus_name := some (pyStr arg) }, none)

/-- Model of the object_path property getter. -/
def get_object_path (st : EndpointState) : Option String :=
  st._object_path

/-- Model of the object_path property setter: a blank path raises
ValueError; otherwise the path is stored exactly when its first character
is the path separator, else ValueError. -/
def set_object_path (st : EndpointState) (object_path : String) :
    EndpointState × Option PyError :=
  if object_path = "" then
    (st, some (.valueError "object_path cannot be blank"))
  else
    match object_path.toList with
    | c :: _ =>
      if c = '/' then
        ({ st with _object_path := some object_path }, none)
      else
        (st, some (.valueError "object_path must follow dbus specifications"))
    | [] => (st, some (.valueError "object_path cannot be blank"))

/-- Model of the default_interface property getter. -/
def get_default_interface (st : EndpointState) : Option String :=
  st._default_interface

/-- Model of the default_interface property setter: a blank name raises
ValueError; otherwise the name is stored exactly when it contains strictly
more than one namespace separator (dot), else ValueError. -/
def set_default_interface (st : EndpointState) (default_interface : String) :
    EndpointState × Option PyError :=
  if default_interface = "" then
    (st, some (.valueError "default_interface cannot be blank"))
  else
    if pyCount default_interface '.' > 1 then
      ({ st with _default_interface := some default_interface }, none)
    else
      (st, some (.valueError "default_interface must follow dbus specifications"))

/-! Connection lifecycle and remote operations.  A connection is modelled
by the identity the transport hands out; the client state counts handed
out identities so that each establish_connection yields a fresh one.  Each
operation returns the updated client state, the trace of transport events
it performs, and its result. -/

/-- One observable interaction with the bus transport. -/
inductive Event
  | connect
  | subscribe
  | invoke (name : String) (args : List Int)
  | invokeFaces (name : String) (faces : List (Int × Int × Int × Int))
deriving DecidableEq, Repr

/-- Connection-lifecycle state of a Controller: the next fresh connection
identity and the currently held connection (None before the first
establish_connection). -/
structure CState where
  nextId : Nat
  connection : Option Nat
deriving DecidableEq, Repr

/-- Model of Controller.establish_connection: build a fresh Connection
from the endpoint fields, connect it to the bus and subscribe the signal
dispatch routine on it; the previous connection handle is replaced. -/
def establish_connection (s : CState) : CState × List Event :=
  ({ nextId := s.nextId + 1, connection := some s.nextId },
   [.connect, .subscribe])

/-- Model of conn.unpack()[0] on a reply: a reply without an unpack method
raises AttributeError, unpack yields the reply tuple, and indexing an
empty tuple raises IndexError. -/
def unpackIdx {α : Type} (reply : Option (List α)) : Except PyError α :=
  match reply with
  | none => .error .attributeError
  | some [] => .error .indexError
  | some (v :: _) => .ok v

/-- Model of a try block followed by except AttributeError raising
ConnectionReturnError with the given message. -/
def catchAttr {α : Type} (x : Except PyError α) (msg : String) :
    Except PyError α :=
  match x with
  | .error .attributeError => .error (.connectionReturnError msg)
  | x => x

/-- Model of a try block followed by a bare except raising
ConnectionReturnError with the given message. -/
def catchAll {α : Type} (x : Except PyError α) (msg : String) :
    Except PyError α :=
  match x with
  | .error _ => .error (.connectionReturnError msg)
  | x => x

/-- The ConnectionReturnError message shared by all operations except
get_compose_port. -/
def invalidReplyMsg : String :=
  "Connection returned invalid values. Should return a GVariant tuple"

/-- The ConnectionReturnError message of get_compose_port, which in the
source lacks the space after the first sentence. -/
def invalidReplyMsgCompose : String :=
  "Connection returned invalid values.Should return a GVariant tuple"

/-- Model of Controller.get_compose_port: invoke the remote query on the
current connection (no reconnect) and unwrap the first element of the
reply, mapping AttributeError to ConnectionReturnError. -/
def get_compose_port {α : Type} (s : CState) (reply : Option (List α)) :
    CState × List Event × Except PyError α :=
  (s, [.invoke "get_compose_port" []],
   catchAttr (unpackIdx reply) invalidReplyMsgCompose)

/-- Model of Controller.get_encode_port: invoke the remote query on the
current connection (no reconnect) and unwrap the first element of the
reply. -/
def get_encode_port {α : Type} (s : CState) (reply : Option (List α)) :
    CState × List Event × Except PyError α :=
  (s, [.invoke "get_encode_port" []],
   catchAttr (unpackIdx reply) invalidReplyMsg)

/-- Model of Controller.get_audio_port: invoke the remote query on the
current connection (no reconnect) and unwrap the first element of the
reply. -/
def get_audio_port {α : Type} (s : CState) (reply : Option (List α)) :
    CState × List Event × Except PyError α :=
  (s, [.invoke "get_audio_port" []],
   catchAttr (unpackIdx reply) invalidReplyMsg)

/-- Model of Controller.get_preview_ports: invoke the remote query on the
current connection (no reconnect), unwrap the first element of the reply
and parse it; the whole try body sits under the except AttributeError
clause. -/
def get_preview_ports (s : CState) (reply : Option (List String)) :
    CState × List Event × Except PyError (List Int) :=
  (s, [.invoke "get_preview_ports" []],
   catchAttr (unpackIdx reply >>= parse_preview_ports) invalidReplyMsg)

/-- Model of Controller.set_composite_mode: reconnect first; only modes 0
to 3 trigger the remote call and unwrap, any other mode is silently
ignored and the initial None result is returned. -/
def set_composite_mode {α : Type} (s : CState) (mode : Int)
    (reply : Option (List α)) :
    CState × List Event × Except PyError (Option α) :=
  let (s1, evs) := establish_connection s
  if 0 ≤ mode ∧ mode ≤ 3 then
    (s1, evs ++ [.invoke "set_composite_mode" [mode]],
     (catchAttr (unpackIdx reply) invalidReplyMsg).map some)
  else
    (s1, evs, .ok none)

/-- Model of Controller.get_composite_mode: reconnect first, invoke the
remote query and unwrap the first element of the reply (the conditional
print of the current mode has no observable effect here). -/
def get_composite_mode {α : Type} (s : CState) (reply : Option (List α)) :
    CState × List Event × Except PyError α :=
  let (s1, evs) := establish_connection s
  (s1, evs ++ [.invoke "get_composite_mode" []],
   catchAttr (unpackIdx reply) invalidReplyMsg)

/-- Model of Controller.set_encode_mode: reconnect first, invoke the
remote call with the channel and unwrap (the comparison of the result with
True has no effect). -/
def set_encode_mode {α : Type} (s : CState) (channel : Int)
    (reply : Option (List α)) :
    CState × List Event × Except PyError α :=
  let (s1, evs) := establish_connection s
  (s1, evs ++ [.invoke "set_encode_mode" [channel]],
   catchAttr (unpackIdx reply) invalidReplyMsg)

/-- Model of Controller.new_record: reconnect first, invoke the remote
call and unwrap. -/
def new_record {α : Type} (s : CState) (reply : Option (List α)) :
    CState × List Event × Except PyError α :=
  let (s1, evs) := establish_connection s
  (s1, evs ++ [.invoke "new_record" []],
   catchAttr (unpackIdx reply) invalidReplyMsg)

/-- Model of Controller.adjust_pip: reconnect first, invoke the remote
call with the four geometry parameters and unwrap. -/
def adjust_pip {α : Type} (s : CState) (xpos ypos width height : Int)
    (reply : Option (List α)) :
    CState × List Event × Except PyError α :=
  let (s1, evs) := establish_connection s
  (s1, evs ++ [.invoke "adjust_pip" [xpos, ypos, width, height]],
   catchAttr (unpackIdx reply) invalidReplyMsg)

/-- Model of Controller.switch: reconnect first, invoke the remote call
with channel and port and unwrap. -/
def switch {α : Type} (s : CState) (channel port : Int)
    (reply : Option (List α)) :
    CState × List Event × Except PyError α :=
  let (s1, evs) := establish_connection s
  (s1, evs ++ [.invoke "switch" [channel, port]],
   catchAttr (unpackIdx reply) invalidReplyMsg)

/-- Model of Controller.click_video: reconnect first, invoke the remote
call and unwrap; uniquely, its try block ends in a bare except, so every
failure inside it becomes ConnectionReturnError. -/
def click_video {α : Type} (s : CState) (xpos ypos width height : Int)
    (reply : Option (List α)) :
    CState × List Event × Except PyError α :=
  let (s1, evs) := establish_connection s
  (s1, evs ++ [.invoke "click_video" [xpos, ypos, width, height]],
   catchAll (unpackIdx reply) invalidReplyMsg)

/-- Model of Controller.mark_face: reconnect first, invoke the remote call
with the face rectangles; the reply is not unwrapped. -/
def mark_face (s : CState) (faces : List (Int × Int × Int × Int)) :
    CState × List Event :=
  let (s1, evs) := establish_connection s
  (s1, evs ++ [.invokeFaces "mark_face" faces])

/-- Model of Controller.mark_tracking: reconnect first, invoke the remote
call with the face rectangles; the reply is not unwrapped. -/
def mark_tracking (s : CState) (faces : List (Int × Int × Int × Int)) :
    CState × List Event :=
  let (s1, evs) := establish_connection s
  (s1, evs ++ [.invokeFaces "mark_tracking" faces])

/-! Signal callback registries and the dispatch routine. -/

/-- A registered callback: an identity for observing invocation order and
a behaviour mapping the dispatched argument bundle to either normal return
(none) or a raised error (some e). -/
structure Callback (α : Type) where
  id : Nat
  behavior : α → Option PyError

/-- The six callback registries of a Controller, all empty after
__init__. -/
structure Registries (α : Type) where
  callbacks_preview_port_added : List (Callback α)
  callbacks_preview_port_removed : List (Callback α)
  callbacks_new_mode_online : List (Callback α)
  callbacks_show_face_marker : List (Callback α)
  callbacks_show_track_marker : List (Callback α)
  callbacks_select_face : List (Callback α)

/-- The registries right after Controller.__init__. -/
def initRegistries (α : Type) : Registries α :=
  { callbacks_preview_port_added := [], callbacks_preview_port_removed := [],
    callbacks_new_mode_online := [], callbacks_show_face_marker := [],
    callbacks_show_track_marker := [], callbacks_select_face := [] }

/-- Model of getattr(self, "callbacks_" ++ signal_name) on a Controller:
the six list attributes above are the only attributes whose name starts
with the prefix, and they are always lists, so the lookup yields the
matching registry or raises AttributeError (None here). -/
def lookupRegistry {α : Type} (r : Registries α) (signal_name : String) :
    Option (List (Callback α)) :=
  if signal_name = "preview_port_added" then some r.callbacks_preview_port_added
  else if signal_name = "preview_port_removed" then some r.callbacks_preview_port_removed
  else if signal_name = "new_mode_online" then some r.callbacks_new_mode_online
  else if signal_name = "show_face_marker" then some r.callbacks_show_face_marker
  else if signal_name = "show_track_marker" then some r.callbacks_show_track_marker
  else if signal_name = "select_face" then some r.callbacks_select_face
  else none

/-- Run the dispatch loop over a registry: call each callback in order
with the unpacked arguments, recording each invocation, and stop at the
first callback that raises, reporting its error. -/
def runCallbacks {α : Type} (cbs : List (Callback α)) (args : α) :
    List (Nat × α) × Option PyError :=
  match cbs with
  | [] => ([], none)
  | c :: rest =>
    match c.behavior args with
    | some e => ([(c.id, args)], some e)
    | none =>
      let (evs, r) := runCallbacks rest args
      ((c.id, args) :: evs, r)

/-- Model of the except AttributeError clause of cb_signal_handler applied
to the outcome of the dispatch loop: no error and a raised AttributeError
both end the handler normally, any other raised error escapes to the
delivery context. -/
def suppressAttr : Option PyError → Except PyError Unit
  | none => .ok ()
  | some .attributeError => .ok ()
  | some e => .error e

/-- Model of Controller.cb_signal_handler: look up the registry named by
the fixed prefix and the signal name and invoke every callback in
registration order with the unpacked arguments; the outcome runs through
the except AttributeError clause modelled by suppressAttr. -/
def cb_signal_handler {α : Type} (r : Registries α) (signal_name : String)
    (args : α) : List (Nat × α) × Except PyError Unit :=
  match lookupRegistry r signal_name with
  | none => ([], .ok ())
  | some cbs =>
    let (evs, err) := runCallbacks cbs args
    (evs, suppressAttr err)

/-- An argument handed to a registration method: either an invocable
callback or a non-invocable value. -/
inductive CbArg (α : Type)
  | callable (c : Callback α)
  | notCallable

/-- The ValueError message raised by every registration method on a
non-invocable argument. -/
def notCallableMsg : String :=
  "Provided argument callback is not callable"

/-- Model of Controller.on_preview_port_added: append an invocable
callback to the preview_port_added registry, raise ValueError otherwise. -/
def on_preview_port_added {α : Type} (r : Registries α) (arg : CbArg α) :
    Registries α × Option PyError :=
  match arg with
  | .callable c =>
    ({ r with callbacks_preview_port_added :=
        r.callbacks_preview_port_added ++ [c] }, none)
  | .notCallable => (r, some (.valueError notCallableMsg))

/-- Model of Controller.on_preview_port_removed. -/
def on_preview_port_removed {α : Type} (r : Registries α) (arg : CbArg α) :
    Registries α × Option PyError :=
  match arg with
  | .callable c =>
    ({ r with callbacks_preview_port_removed :=
        r.callbacks_preview_port_removed ++ [c] }, none)
  | .notCallable => (r, some (.valueError notCallableMsg))

/-- Model of Controller.on_new_mode_online. -/
def on_new_mode_online {α : Type} (r : Registries α) (arg : CbArg α) :
    Registries α × Option PyError :=
  match arg with
  | .callable c =>
    ({ r with callbacks_new_mode_online :=
        r.callbacks_new_mode_online ++ [c] }, none)
  | .notCallable => (r, some (.valueError notCallableMsg))

/-- Model of Controller.on_show_face_marker. -/
def on_show_face_marker {α : Type} (r : Registries α) (arg : CbArg α) :
    Registries α × Option PyError :=
  match arg with
  | .callable c =>
    ({ r with callbacks_show_face_marker :=
        r.callbacks_show_face_marker ++ [c] }, none)
  | .notCallable => (r, some (.valueError notCallableMsg))

/-- Model of Controller.on_show_track_marker. -/
def on_show_track_marker {α : Type} (r : Registries α) (arg : CbArg α) :
    Registries α × Option PyError :=
  match arg with
  | .callable c =>
    ({ r with callbacks_show_track_marker :=
        r.callbacks_show_track_marker ++ [c] }, none)
  | .notCallable => (r, some (.valueError notCallableMsg))

/-- Model of Controller.on_select_face. -/
def on_select_face {α : Type} (r : Registries α) (arg : CbArg α) :
    Registries α × Option PyError :=
  match arg with
  | .callable c =>
    ({ r with callbacks_select_face :=
        r.callbacks_select_face ++ [c] }, none)
  | .notCallable => (r, some (.valueError notCallableMsg))

/-! Concrete callbacks and registries used to instantiate the dispatch and
registration theorems. -/

/-- A callback that returns normally, identity 0. -/
def cbA : Callback Int := ⟨0, fun _ => none⟩

/-- A callback that returns normally, identity 1. -/
def cbB : Callback Int := ⟨1, fun _ => none⟩

/-- A callback that returns normally, identity 2. -/
def cbC : Callback Int := ⟨2, fun _ => none⟩

/-- Three callbacks registered for preview_port_added through the public
registration method, in the order cbA, cbB, cbC. -/
def regs3 : Registries Int :=
  (on_preview_port_added
    ((on_preview_port_added
      ((on_preview_port_added (initRegistries Int) (.callable cbA)).1)
      (.callable cbB)).1)
    (.callable cbC)).1

/-- A callback raising AttributeError, the error kind the dispatch routine
uses internally for a missing registry. -/
def cbRaiseAttr : Callback Int := ⟨0, fun _ => some .attributeError⟩

/-- A callback raising TypeError. -/
def cbRaiseType : Callback Int := ⟨0, fun _ => some .typeError⟩

/-- Registries with an AttributeError-raising callback followed by a
well-behaved one under preview_port_added. -/
def regsAttr : Registries Int :=
  { initRegistries Int with callbacks_preview_port_added := [cbRaiseAttr, cbB] }

/-- Registries with a TypeError-raising callback followed by a
well-behaved one under preview_port_added. -/
def regsType : Registries Int :=
  { initRegistries Int with callbacks_preview_port_added := [cbRaiseType, cbB] }

/-! Helper lemmas shared by the claim theorems. -/

/-- The dispatch loop over callbacks that all return normally invokes each
one in order with the given arguments and reports no error. -/
theorem runCallbacks_all_ok {α : Type} {cbs : List (Callback α)} {args : α}
    (h : ∀ c ∈ cbs, c.behavior args = none) :
    runCallbacks cbs args = (cbs.map (fun c => (c.id, args)), none) := by
  induction cbs with
  | nil => rfl
  | cons c rest ih =>
    have hc := h c (List.mem_cons_self _ _)
    simp [runCallbacks, hc, ih (fun c0 h0 => h c0 (List.mem_cons_of_mem _ h0))]

/-- The dispatch loop stops at the first raising callback: the successful
callbacks before it and the raising one are invoked, its error is
reported, and the callbacks after it are not invoked. -/
theorem runCallbacks_first_fail {α : Type} {pre post : List (Callback α)}
    {c : Callback α} {args : α} {e : PyError}
    (hpre : ∀ c0 ∈ pre, c0.behavior args = none)
    (hc : c.behavior args = some e) :
    runCallbacks (pre ++ c :: post) args =
      (pre.map (fun c0 => (c0.id, args)) ++ [(c.id, args)], some e) := by
  induction pre with
  | nil => simp [runCallbacks, hc]
  | cons p rest ih =>
    have hp := hpre p (List.mem_cons_self _ _)
    simp [runCallbacks, hp, ih (fun c0 h0 => hpre c0 (List.mem_cons_of_mem _ h0))]

/-- The except AttributeError clause lets every other error kind escape. -/
theorem suppressAttr_other {e : PyError} (he : e ≠ .attributeError) :
    suppressAttr (some e) = .error e := by
  cases e <;> first | rfl | exact absurd rfl he

/-- The loop of parse_preview_ports maps a list of tuples whose first
components are the integers hs to exactly hs, in order. -/
theorem mapIntHeads_forall2 {ts : List PyLit} {hs : List Int}
    (h : List.Forall₂ (fun t n => ∃ rest, t = PyLit.tuple (PyLit.int n :: rest)) ts hs) :
    mapIntHeads ts = .ok hs := by
  induction h with
  | nil => rfl
  | cons hd _ ih =>
    obtain ⟨rest, hrest⟩ := hd
    subst hrest
    simp [mapIntHeads, pyIndex0, pyToInt, ih, Bind.bind, Except.bind]

/-! Claim theorems. -/

/-- C3 counterexample: the input string braces (an empty dict literal) is
not syntactically a list/tuple expression, yet parse_preview_ports does
not fail with ConnectionReturnError: the literal evaluator accepts it,
the loop iterates over zero keys, and the empty port list is returned
with no error at all; likewise the boolean literal True and the float
literal 1.5 raise an uncaught TypeError when the loop iterates them, and
a quoted two-letter string iterates its characters until int() raises an
uncaught ValueError — none of these is a ConnectionReturnError. -/
theorem C3_counterexample :
    parse_preview_ports "{}" = Except.ok [] ∧
    parse_preview_ports "True" = Except.error PyError.typeError ∧
    parse_preview_ports "1.5" = Except.error PyError.typeError ∧
    parse_preview_ports "\"ab\"" =
      Except.error (PyError.valueError "invalid literal for int with base 10") :=
  ⟨rfl, rfl, rfl, rfl⟩

/-- C3 amended: parse_preview_ports maps the textual encoding of a list
of tuples to the ordered sequence of the first element of each tuple
coerced to an integer, preserving input order and ignoring arity beyond
the first element; a string the literal evaluator rejects as malformed,
such as "not a list", fails with ConnectionReturnError naming the
offending text; but a string encoding a valid literal that is not a list
of tuples is not reported as ConnectionReturnError: an empty dict yields
the empty port list with no error, and non-iterable literals (integers,
floats, booleans, None) raise an uncaught TypeError. -/
theorem C3_parse_preview_ports_amended :
    parse_preview_ports "[(1, 2, 3)]" = .ok [1] ∧
    parse_preview_ports "[(1,2,3),(4,5,6)]" = .ok [1, 4] ∧
    parse_preview_ports "[]" = .ok [] ∧
    parse_preview_ports "not a list" =
      .error (.connectionReturnError "Connection returned invalid values:not a list") ∧
    parse_preview_ports "[(1," =
      .error (.connectionReturnError "Connection returned invalid values:[(1,") ∧
    (∀ (s : String) (ts : List PyLit) (hs : List Int),
      literal_eval s = .ok (.list ts) →
      List.Forall₂ (fun t n => ∃ rest, t = PyLit.tuple (PyLit.int n :: rest)) ts hs →
      parse_preview_ports s = .ok hs) ∧
    (∀ s : String, literal_eval s = .ok (.dict []) →
      parse_preview_ports s = .ok []) ∧
    (∀ (s : String) (n : Int), literal_eval s = .ok (.int n) →
      parse_preview_ports s = .error .typeError) ∧
    (∀ (s : String) (neg : Bool) (ip : Nat) (fr : List Char),
      literal_eval s = .ok (.float neg ip fr) →
      parse_preview_ports s = .error .typeError) ∧
    (∀ (s : String) (b : Bool), literal_eval s = .ok (.bool b) →
      parse_preview_ports s = .error .typeError) := by
  refine ⟨rfl, rfl, rfl, rfl, rfl, ?_, ?_, ?_, ?_, ?_⟩
  · intro s ts hs hev hf
    simp [parse_preview_ports, hev, pyElems, mapIntHeads_forall2 hf]
  · intro s h
    simp [parse_preview_ports, h, pyElems, mapIntHeads]
  · intro s n h
    simp [parse_preview_ports, h, pyElems]
  · intro s neg ip fr h
    simp [parse_preview_ports, h, pyElems]
  · intro s b h
    simp [parse_preview_ports, h, pyElems]

/-- C3 witness: the general clauses of the amended theorem applied at the
concrete inputs "[(9, 8)]" (a one-tuple list whose first component is 9)
and an empty dict literal written with an inner space. -/
theorem C3_witness :
    parse_preview_ports "[(9, 8)]" = Except.ok [9] ∧
    parse_preview_ports "{ }" = Except.ok [] :=
  ⟨C3_parse_preview_ports_amended.2.2.2.2.2.1 "[(9, 8)]"
     [PyLit.tuple [PyLit.int 9, PyLit.int 8]] [9] rfl
     (List.Forall₂.cons ⟨[PyLit.int 8], rfl⟩ List.Forall₂.nil),
   C3_parse_preview_ports_amended.2.2.2.2.2.2.1 "{ }" rfl⟩

/-- C5 counterexample: the string ":x" is non-empty and contains the
delimiter character, yet the address setter raises the validation error
and stores nothing, because the code requires the first colon to sit at a
strictly positive index. -/
theorem C5_counterexample :
    (":x" : String) ≠ "" ∧
    (":x" : String).toList.contains ':' = true ∧
    (set_address initEndpoint ":x").1 = initEndpoint ∧
    (set_address initEndpoint ":x").2 =
      some (PyError.valueError "Address must follow dbus specifications") :=
  ⟨by decide, by decide, rfl, rfl⟩

/-- C5 amended: assigning an address succeeds, storing the value unchanged
and retrievable through the getter, exactly when the first occurrence of
the delimiter is at a strictly positive index (the string contains a colon
and its first character is not a colon); the empty string fails with the
blank-address validation error, and every other string whose find result
is not positive (no colon, or a leading colon) fails with the
specification validation error, leaving the state unchanged. -/
theorem C5_address_amended (st : EndpointState) (a : String) :
    (0 < pyFind a ':' →
      set_address st a = ({ st with _address := some a }, none) ∧
      get_address (set_address st a).1 = some a) ∧
    (a = "" →
      (set_address st a).1 = st ∧
      (set_address st a).2 = some (.valueError "Address cannot be blank")) ∧
    (a ≠ "" → pyFind a ':' ≤ 0 →
      (set_address st a).1 = st ∧
      (set_address st a).2 =
        some (.valueError "Address must follow dbus specifications")) := by
  refine ⟨?_, ?_, ?_⟩
  · intro h
    have ha : ¬ a = "" := by
      intro he
      rw [he] at h
      exact absurd h (by decide)
    constructor
    · simp [set_address, ha, h]
    · simp [set_address, get_address, ha, h]
  · intro h
    subst h
    exact ⟨rfl, rfl⟩
  · intro ha h
    have hn : ¬ pyFind a ':' > 0 := by omega
    constructor
    · simp [set_address, ha, hn]
    · simp [set_address, ha, hn]

/-- C5 witness: the amended theorem applied at the delimited address
"tcp:host=1" (stored and retrievable unchanged) and at the
delimiter-free string "nodelim" (validation error). -/
theorem C5_witness :
    set_address initEndpoint "tcp:host=1" =
      ({ initEndpoint with _address := some "tcp:host=1" }, none) ∧
    (set_address initEndpoint "nodelim").2 =
      some (PyError.valueError "Address must follow dbus specifications") :=
  ⟨((C5_address_amended initEndpoint "tcp:host=1").1 (by decide)).1,
   ((C5_address_amended initEndpoint "nodelim").2.2 (by decide) (by decide)).2⟩

/-- C8: for every current state and every candidate value failing the
stated validation predicate of address (blank or no delimiter),
object_path (blank or not starting with the path separator) or
default_interface (blank or fewer than two namespace separators), the
setter raises the validation error and returns with the whole endpoint
state, hence every field, unchanged. -/
theorem C8_all_or_nothing (st : EndpointState) (a p i : String) :
    ((a = "" ∨ (':' ∈ a.toList → False)) →
      (set_address st a).1 = st ∧
      ∃ m, (set_address st a).2 = some (.valueError m)) ∧
    ((p = "" ∨ p.toList.headD ' ' ≠ '/') →
      (set_object_path st p).1 = st ∧
      ∃ m, (set_object_path st p).2 = some (.valueError m)) ∧
    ((i = "" ∨ pyCount i '.' < 2) →
      (set_default_interface st i).1 = st ∧
      ∃ m, (set_default_interface st i).2 = some (.valueError m)) := by
  refine ⟨?_, ?_, ?_⟩
  · rintro (h | h)
    · subst h
      exact ⟨rfl, _, rfl⟩
    · by_cases he : a = ""
      · subst he
        exact ⟨rfl, _, rfl⟩
      · have hfind : a.toList.findIdx? (fun c => c = ':') = none := by
          rw [List.findIdx?_eq_none_iff]
          intro x hx
          by_cases hx2 : x = ':'
          · exact absurd (hx2 ▸ hx) (fun hm => h hm)
          · simp [hx2]
        have hf : pyFind a ':' = -1 := by
          unfold pyFind
          rw [hfind]
        have hn : ¬ pyFind a ':' > 0 := by omega
        refine ⟨?_, ?_⟩
        · simp [set_address, he, hn]
        · exact ⟨"Address must follow dbus specifications",
            by simp [set_address, he, hn]⟩
  · rintro (h | h)
    · subst h
      exact ⟨rfl, _, rfl⟩
    · by_cases he : p = ""
      · subst he
        exact ⟨rfl, _, rfl⟩
      · cases hl : p.toList with
        | nil =>
          have hl2 : p.data = [] := hl
          refine ⟨?_, ?_⟩
          · simp [set_object_path, he, hl2]
          · exact ⟨"object_path cannot be blank",
              by simp [set_object_path, he, hl2]⟩
        | cons c rest =>
          have hc : ¬ c = '/' := by
            have hh : p.toList.headD ' ' = c := by rw [hl]; rfl
            rw [hh] at h
            exact h
          have hl2 : p.data = c :: rest := hl
          refine ⟨?_, ?_⟩
          · simp [set_object_path, he, hl2, hc]
          · exact ⟨"object_path must follow dbus specifications",
              by simp [set_object_path, he, hl2, hc]⟩
  · rintro (h | h)
    · subst h
      exact ⟨rfl, _, rfl⟩
    · by_cases he : i = ""
      · subst he
        exact ⟨rfl, _, rfl⟩
      · have hn : ¬ pyCount i '.' > 1 := by omega
        refine ⟨?_, ?_⟩
        · simp [set_default_interface, he, hn]
        · exact ⟨"default_interface must follow dbus specifications",
            by simp [set_default_interface, he, hn]⟩

/-- C8 witness: the theorem applied at a state holding valid values and at
concrete failing candidates for each of the three validated fields. -/
theorem C8_witness :
    (set_address ⟨some "tcp:h", some "b", some "/p", some "a.b.c"⟩ "nodelim").1 =
      ⟨some "tcp:h", some "b", some "/p", some "a.b.c"⟩ ∧
    (set_object_path ⟨some "tcp:h", some "b", some "/p", some "a.b.c"⟩ "bad").1 =
      ⟨some "tcp:h", some "b", some "/p", some "a.b.c"⟩ ∧
    (set_default_interface ⟨some "tcp:h", some "b", some "/p", some "a.b.c"⟩ "a.b").1 =
      ⟨some "tcp:h", some "b", some "/p", some "a.b.c"⟩ :=
  ⟨((C8_all_or_nothing ⟨some "tcp:h", some "b", some "/p", some "a.b.c"⟩
      "nodelim" "bad" "a.b").1 (Or.inr (by decide))).1,
   ((C8_all_or_nothing ⟨some "tcp:h", some "b", some "/p", some "a.b.c"⟩
      "nodelim" "bad" "a.b").2.1 (Or.inr (by decide))).1,
   ((C8_all_or_nothing ⟨some "tcp:h", some "b", some "/p", some "a.b.c"⟩
      "nodelim" "bad" "a.b").2.2 (Or.inr (by decide))).1⟩

/-- C10: the bus_name setter is total and never raises: assigning None
stores absence, assigning any other value stores its string form, and the
getter returns exactly what was stored. -/
theorem C10_bus_name_total (st : EndpointState) (arg : PyObj) :
    (set_bus_name st arg).2 = none ∧
    get_bus_name (set_bus_name st arg).1 =
      (match arg with
       | PyObj.none => none
       | a => some (pyStr a)) := by
  cases arg <;> exact ⟨rfl, rfl⟩

/-- C9: for each of the six signal kinds, registering an invocable
callback appends it to the registry of that signal while leaving the other
five registries unchanged and raising nothing, so registries are
append-only; registering a non-invocable argument raises the callback
validation error and leaves every registry unchanged. -/
theorem C9_registration {α : Type} (r : Registries α) (c : Callback α) :
    ((on_preview_port_added r (.callable c)).1.callbacks_preview_port_added =
        r.callbacks_preview_port_added ++ [c] ∧
      (on_preview_port_added r (.callable c)).1.callbacks_preview_port_removed =
        r.callbacks_preview_port_removed ∧
      (on_preview_port_added r (.callable c)).1.callbacks_new_mode_online =
        r.callbacks_new_mode_online ∧
      (on_preview_port_added r (.callable c)).1.callbacks_show_face_marker =
        r.callbacks_show_face_marker ∧
      (on_preview_port_added r (.callable c)).1.callbacks_show_track_marker =
        r.callbacks_show_track_marker ∧
      (on_preview_port_added r (.callable c)).1.callbacks_select_face =
        r.callbacks_select_face ∧
      (on_preview_port_added r (.callable c)).2 = none ∧
      on_preview_port_added r .notCallable =
        (r, some (.valueError notCallableMsg))) ∧
    ((on_preview_port_removed r (.callable c)).1.callbacks_preview_port_removed =
        r.callbacks_preview_port_removed ++ [c] ∧
      (on_preview_port_removed r (.callable c)).1.callbacks_preview_port_added =
        r.callbacks_preview_port_added ∧
      (on_preview_port_removed r (.callable c)).1.callbacks_new_mode_online =
        r.callbacks_new_mode_online ∧
      (on_preview_port_removed r (.callable c)).1.callbacks_show_face_marker =
        r.callbacks_show_face_marker ∧
      (on_preview_port_removed r (.callable c)).1.callbacks_show_track_marker =
        r.callbacks_show_track_marker ∧
      (on_preview_port_removed r (.callable c)).1.callbacks_select_face =
        r.callbacks_select_face ∧
      (on_preview_port_removed r (.callable c)).2 = none ∧
      on_preview_port_removed r .notCallable =
        (r, some (.valueError notCallableMsg))) ∧
    ((on_new_mode_online r (.callable c)).1.callbacks_new_mode_online =
        r.callbacks_new_mode_online ++ [c] ∧
      (on_new_mode_online r (.callable c)).1.callbacks_preview_port_added =
        r.callbacks_preview_port_added ∧
      (on_new_mode_online r (.callable c)).1.callbacks_preview_port_removed =
        r.callbacks_preview_port_removed ∧
      (on_new_mode_online r (.callable c)).1.callbacks_show_face_marker =
        r.callbacks_show_face_marker ∧
      (on_new_mode_online r (.callable c)).1.callbacks_show_track_marker =
        r.callbacks_show_track_marker ∧
      (on_new_mode_online r (.callable c)).1.callbacks_select_face =
        r.callbacks_select_face ∧
      (on_new_mode_online r (.callable c)).2 = none ∧
      on_new_mode_online r .notCallable =
        (r, some (.valueError notCallableMsg))) ∧
    ((on_show_face_marker r (.callable c)).1.callbacks_show_face_marker =
        r.callbacks_show_face_marker ++ [c] ∧
      (on_show_face_marker r (.callable c)).1.callbacks_preview_port_added =
        r.callbacks_preview_port_added ∧
      (on_show_face_marker r (.callable c)).1.callbacks_preview_port_removed =
        r.callbacks_preview_port_removed ∧
      (on_show_face_marker r (.callable c)).1.callbacks_new_mode_online =
        r.callbacks_new_mode_online ∧
      (on_show_face_marker r (.callable c)).1.callbacks_show_track_marker =
        r.callbacks_show_track_marker ∧
      (on_show_face_marker r (.callable c)).1.callbacks_select_face =
        r.callbacks_select_face ∧
      (on_show_face_marker r (.callable c)).2 = none ∧
      on_show_face_marker r .notCallable =
        (r, some (.valueError notCallableMsg))) ∧
    ((on_show_track_marker r (.callable c)).1.callbacks_show_track_marker =
        r.callbacks_show_track_marker ++ [c] ∧
      (on_show_track_marker r (.callable c)).1.callbacks_preview_port_added =
        r.callbacks_preview_port_added ∧
      (on_show_track_marker r (.callable c)).1.callbacks_preview_port_removed =
        r.callbacks_preview_port_removed ∧
      (on_show_track_marker r (.callable c)).1.callbacks_new_mode_online =
        r.callbacks_new_mode_online ∧
      (on_show_track_marker r (.callable c)).1.callbacks_show_face_marker =
        r.callbacks_show_face_marker ∧
      (on_show_track_marker r (.callable c)).1.callbacks_select_face =
        r.callbacks_select_face ∧
      (on_show_track_marker r (.callable c)).2 = none ∧
      on_show_track_marker r .notCallable =
        (r, some (.valueError notCallableMsg))) ∧
    ((on_select_face r (.callable c)).1.callbacks_select_face =
        r.callbacks_select_face ++ [c] ∧
      (on_select_face r (.callable c)).1.callbacks_preview_port_added =
        r.callbacks_preview_port_added ∧
      (on_select_face r (.callable c)).1.callbacks_preview_port_removed =
        r.callbacks_preview_port_removed ∧
      (on_select_face r (.callable c)).1.callbacks_new_mode_online =
        r.callbacks_new_mode_online ∧
      (on_select_face r (.callable c)).1.callbacks_show_face_marker =
        r.callbacks_show_face_marker ∧
      (on_select_face r (.callable c)).1.callbacks_show_track_marker =
        r.callbacks_show_track_marker ∧
      (on_select_face r (.callable c)).2 = none ∧
      on_select_face r .notCallable =
        (r, some (.valueError notCallableMsg))) :=
  ⟨⟨rfl, rfl, rfl, rfl, rfl, rfl, rfl, rfl⟩,
   ⟨rfl, rfl, rfl, rfl, rfl, rfl, rfl, rfl⟩,
   ⟨rfl, rfl, rfl, rfl, rfl, rfl, rfl, rfl⟩,
   ⟨rfl, rfl, rfl, rfl, rfl, rfl, rfl, rfl⟩,
   ⟨rfl, rfl, rfl, rfl, rfl, rfl, rfl, rfl⟩,
   ⟨rfl, rfl, rfl, rfl, rfl, rfl, rfl, rfl⟩⟩

/-- C4: the dispatch routine looks up the registry named by the fixed
prefix and the signal name; a signal name with no matching registry
returns without error and invokes no callback, and a signal name with a
registry whose callbacks all return normally invokes every registered
callback, in registration order, each with the same unpacked arguments. -/
theorem C4_dispatch {α : Type} (r : Registries α) (name : String) (args : α) :
    (lookupRegistry r name = none →
      cb_signal_handler r name args = ([], .ok ())) ∧
    (∀ cbs, lookupRegistry r name = some cbs →
      (∀ c ∈ cbs, c.behavior args = none) →
      cb_signal_handler r name args =
        (cbs.map (fun c => (c.id, args)), .ok ())) := by
  constructor
  · intro h
    simp [cb_signal_handler, h]
  · intro cbs h hall
    simp [cb_signal_handler, h, runCallbacks_all_ok hall, suppressAttr]

/-- C4 witness: three callbacks registered for preview_port_added through
the public registration method are all invoked, in registration order,
each with the dispatched argument 7; an unknown signal kind is silently
ignored. -/
theorem C4_witness :
    cb_signal_handler regs3 "preview_port_added" (7 : Int) =
      ([(0, 7), (1, 7), (2, 7)], .ok ()) ∧
    cb_signal_handler regs3 "unknown_signal" (7 : Int) = ([], .ok ()) :=
  ⟨(C4_dispatch regs3 "preview_port_added" 7).2 [cbA, cbB, cbC] rfl
     (by intro c hc; fin_cases hc <;> rfl),
   (C4_dispatch regs3 "unknown_signal" 7).1 rfl⟩

/-- C7 counterexample: under preview_port_added sit a callback raising
AttributeError (identity 0) followed by a well-behaved one (identity 1);
dispatching invokes only the first and returns without error, so the
error raised by the callback is caught by the dispatcher rather than
propagating, and the remaining callback is skipped. -/
theorem C7_counterexample :
    regsAttr.callbacks_preview_port_added.map Callback.id = [0, 1] ∧
    cb_signal_handler regsAttr "preview_port_added" (0 : Int) =
      ([(0, 0)], .ok ()) :=
  ⟨rfl, rfl⟩

/-- C7 amended: the dispatch routine suppresses exactly the AttributeError
kind: when a callback raises AttributeError, dispatch stops there and
returns without error (remaining callbacks are skipped), just as for a
missing registry; when a callback raises any other error kind, dispatch
stops there and that error propagates to the delivery context. -/
theorem C7_dispatch_amended {α : Type} (r : Registries α) (name : String)
    (args : α) (pre post : List (Callback α)) (c : Callback α) (e : PyError)
    (hlook : lookupRegistry r name = some (pre ++ c :: post))
    (hpre : ∀ c0 ∈ pre, c0.behavior args = none)
    (hc : c.behavior args = some e) :
    (e = .attributeError →
      cb_signal_handler r name args =
        (pre.map (fun c0 => (c0.id, args)) ++ [(c.id, args)], .ok ())) ∧
    (e ≠ .attributeError →
      cb_signal_handler r name args =
        (pre.map (fun c0 => (c0.id, args)) ++ [(c.id, args)], .error e)) := by
  constructor
  · intro he
    subst he
    simp [cb_signal_handler, hlook, runCallbacks_first_fail hpre hc, suppressAttr]
  · intro he
    simp [cb_signal_handler, hlook, runCallbacks_first_fail hpre hc,
      suppressAttr_other he]

/-- C7 witness: the amended theorem applied to a registry holding a
TypeError-raising callback followed by a well-behaved one: the TypeError
escapes the dispatcher and the second callback is not invoked. -/
theorem C7_witness :
    cb_signal_handler regsType "preview_port_added" (0 : Int) =
      ([(0, 0)], .error .typeError) :=
  (C7_dispatch_amended regsType "preview_port_added" 0 [] [cbB] cbRaiseType
      .typeError rfl (by intro c0 h0; exact absurd h0 (List.not_mem_nil _)) rfl).2
    (by decide)

/-- C6: set_composite_mode with a mode outside 0 to 3 issues no remote
set-composite-mode call, raises no error and returns the no-op None
result; with a mode in 0 to 3 it performs exactly one remote
set-composite-mode call carrying that mode, and when the reply carries at
least one element it returns the unwrapped first element. -/
theorem C6_set_composite_mode {α : Type} (s : CState) (mode : Int)
    (reply : Option (List α)) (v : α) (vs : List α) :
    (¬(0 ≤ mode ∧ mode ≤ 3) →
      set_composite_mode s mode reply =
        ((establish_connection s).1, [Event.connect, Event.subscribe],
         Except.ok none)) ∧
    ((0 ≤ mode ∧ mode ≤ 3) →
      (set_composite_mode s mode reply).2.1 =
        [Event.connect, Event.subscribe,
         Event.invoke "set_composite_mode" [mode]] ∧
      (set_composite_mode s mode (some (v :: vs))).2.2 =
        Except.ok (some v)) := by
  constructor
  · intro h
    simp [set_composite_mode, establish_connection, h]
  · intro h
    constructor
    · simp [set_composite_mode, establish_connection, h]
    · simp [set_composite_mode, establish_connection, h, catchAttr, unpackIdx,
        Except.map]

/-- C6 witness: the theorem applied at mode 4 (out of range: only connect
and subscribe happen, the result is the no-op None) and at mode 2 (one
remote call carrying 2, unwrapped reply 9 returned). -/
theorem C6_witness :
    set_composite_mode (⟨0, none⟩ : CState) 4 (some [(9 : Int)]) =
      (⟨1, some 0⟩, [Event.connect, Event.subscribe], Except.ok none) ∧
    (set_composite_mode (⟨0, none⟩ : CState) 2 (some [(9 : Int)])).2.1 =
      [Event.connect, Event.subscribe,
       Event.invoke "set_composite_mode" [2]] ∧
    (set_composite_mode (⟨0, none⟩ : CState) 2 (some [(9 : Int)])).2.2 =
      Except.ok (some 9) :=
  ⟨(C6_set_composite_mode ⟨0, none⟩ 4 (some [(9 : Int)]) 9 []).1 (by decide),
   (C6_set_composite_mode ⟨0, none⟩ 2 (some [(9 : Int)]) 9 []).2 (by decide)⟩

/-- C2 counterexample: get_compose_port, a query operation named by the
claim, issues its remote call without any connect or subscription and
leaves the client state, hence the connection identity, unchanged. -/
theorem C2_counterexample :
    get_compose_port (⟨5, some 3⟩ : CState) (some [(7 : Int)]) =
      ((⟨5, some 3⟩ : CState), [Event.invoke "get_compose_port" []],
       Except.ok 7) ∧
    Event.connect ∉
      (get_compose_port (⟨5, some 3⟩ : CState) (some [(7 : Int)])).2.1 :=
  ⟨rfl, by decide⟩

/-- C2 amended: every operation that reconnects (set and get composite
mode, set encode mode, new record, adjust PIP, switch, click video, mark
face, mark tracking) begins its trace with connect then subscribe and
replaces the held connection with the fresh identity; the four query
operations (compose, encode and audio port, preview ports) issue their
remote call on the existing connection, with no connect or subscribe and
the state unchanged; and two sequential reconnecting calls end up with
different connection identities. -/
theorem C2_connection_amended {α : Type} (s : CState) (r : Option (List α))
    (rs : Option (List String)) (m ch pt x y w h : Int)
    (faces : List (Int × Int × Int × Int)) :
    ((set_composite_mode s m r).1 = ⟨s.nextId + 1, some s.nextId⟩ ∧
      (set_composite_mode s m r).2.1.take 2 =
        [Event.connect, Event.subscribe]) ∧
    ((get_composite_mode s r).1 = ⟨s.nextId + 1, some s.nextId⟩ ∧
      (get_composite_mode s r).2.1.take 2 =
        [Event.connect, Event.subscribe]) ∧
    ((set_encode_mode s ch r).1 = ⟨s.nextId + 1, some s.nextId⟩ ∧
      (set_encode_mode s ch r).2.1.take 2 =
        [Event.connect, Event.subscribe]) ∧
    ((new_record s r).1 = ⟨s.nextId + 1, some s.nextId⟩ ∧
      (new_record s r).2.1.take 2 = [Event.connect, Event.subscribe]) ∧
    ((adjust_pip s x y w h r).1 = ⟨s.nextId + 1, some s.nextId⟩ ∧
      (adjust_pip s x y w h r).2.1.take 2 =
        [Event.connect, Event.subscribe]) ∧
    ((switch s ch pt r).1 = ⟨s.nextId + 1, some s.nextId⟩ ∧
      (switch s ch pt r).2.1.take 2 = [Event.connect, Event.subscribe]) ∧
    ((click_video s x y w h r).1 = ⟨s.nextId + 1, some s.nextId⟩ ∧
      (click_video s x y w h r).2.1.take 2 =
        [Event.connect, Event.subscribe]) ∧
    ((mark_face s faces).1 = ⟨s.nextId + 1, some s.nextId⟩ ∧
      (mark_face s faces).2.take 2 = [Event.connect, Event.subscribe]) ∧
    ((mark_tracking s faces).1 = ⟨s.nextId + 1, some s.nextId⟩ ∧
      (mark_tracking s faces).2.take 2 = [Event.connect, Event.subscribe]) ∧
    ((get_compose_port s r).1 = s ∧
      Event.connect ∉ (get_compose_port s r).2.1 ∧
      Event.subscribe ∉ (get_compose_port s r).2.1) ∧
    ((get_encode_port s r).1 = s ∧
      Event.connect ∉ (get_encode_port s r).2.1 ∧
      Event.subscribe ∉ (get_encode_port s r).2.1) ∧
    ((get_audio_port s r).1 = s ∧
      Event.connect ∉ (get_audio_port s r).2.1 ∧
      Event.subscribe ∉ (get_audio_port s r).2.1) ∧
    ((get_preview_ports s rs).1 = s ∧
      Event.connect ∉ (get_preview_ports s rs).2.1 ∧
      Event.subscribe ∉ (get_preview_ports s rs).2.1) ∧
    (set_composite_mode ((set_composite_mode s m r).1) m r).1.connection ≠
      (set_composite_mode s m r).1.connection := by
  by_cases hm : 0 ≤ m ∧ m ≤ 3 <;>
    refine ⟨?_, ?_, ?_, ?_, ?_, ?_, ?_, ?_, ?_, ?_, ?_, ?_, ?_, ?_⟩ <;>
    simp [set_composite_mode, get_composite_mode, set_encode_mode, new_record,
      adjust_pip, switch, click_video, mark_face, mark_tracking,
      get_compose_port, get_encode_port, get_audio_port, get_preview_ports,
      establish_connection, hm]

/-- C1 counterexample: a reply whose composite has zero elements makes
get_compose_port fail with IndexError, which is not a
ConnectionReturnError, contradicting the claim that every shape failure,
including a zero-element composite, is reported as ConnectionReturnError. -/
theorem C1_counterexample :
    (get_compose_port (⟨0, none⟩ : CState) (some ([] : List Int))).2.2 =
      Except.error PyError.indexError ∧
    PyError.indexError ≠ PyError.connectionReturnError invalidReplyMsgCompose :=
  ⟨rfl, by decide⟩

/-- C1 amended: for every reply-unwrapping operation, a reply carrying at
least one element yields its first element (for query preview ports, the
parse of that element); a reply without the composite shape (no unpack)
yields ConnectionReturnError; a zero-element composite instead raises
IndexError uncaught in every operation except click_video, whose bare
except maps every failure, the zero-element composite included, to
ConnectionReturnError. -/
theorem C1_unwrap_amended {α : Type} (s : CState) (v : α) (vs : List α)
    (pstr : String) (pstrs : List String) (m ch pt x y w h : Int) :
    ((0 ≤ m ∧ m ≤ 3) →
      (set_composite_mode s m (some (v :: vs))).2.2 = .ok (some v) ∧
      (set_composite_mode s m (none : Option (List α))).2.2 =
        .error (.connectionReturnError invalidReplyMsg) ∧
      (set_composite_mode s m (some ([] : List α))).2.2 =
        .error .indexError) ∧
    (∀ ports, parse_preview_ports pstr = .ok ports →
      (get_preview_ports s (some (pstr :: pstrs))).2.2 = .ok ports) ∧
    (∀ msg, parse_preview_ports pstr = .error (.connectionReturnError msg) →
      (get_preview_ports s (some (pstr :: pstrs))).2.2 =
        .error (.connectionReturnError msg)) ∧
    (get_compose_port s (some (v :: vs))).2.2 = .ok v ∧
    (get_encode_port s (some (v :: vs))).2.2 = .ok v ∧
    (get_audio_port s (some (v :: vs))).2.2 = .ok v ∧
    (get_composite_mode s (some (v :: vs))).2.2 = .ok v ∧
    (set_encode_mode s ch (some (v :: vs))).2.2 = .ok v ∧
    (new_record s (some (v :: vs))).2.2 = .ok v ∧
    (adjust_pip s x y w h (some (v :: vs))).2.2 = .ok v ∧
    (switch s ch pt (some (v :: vs))).2.2 = .ok v ∧
    (click_video s x y w h (some (v :: vs))).2.2 = .ok v ∧
    (get_compose_port s (none : Option (List α))).2.2 =
      .error (.connectionReturnError invalidReplyMsgCompose) ∧
    (get_encode_port s (none : Option (List α))).2.2 =
      .error (.connectionReturnError invalidReplyMsg) ∧
    (get_audio_port s (none : Option (List α))).2.2 =
      .error (.connectionReturnError invalidReplyMsg) ∧
    (get_preview_ports s none).2.2 =
      .error (.connectionReturnError invalidReplyMsg) ∧
    (get_composite_mode s (none : Option (List α))).2.2 =
      .error (.connectionReturnError invalidReplyMsg) ∧
    (set_encode_mode s ch (none : Option (List α))).2.2 =
      .error (.connectionReturnError invalidReplyMsg) ∧
    (new_record s (none : Option (List α))).2.2 =
      .error (.connectionReturnError invalidReplyMsg) ∧
    (adjust_pip s x y w h (none : Option (List α))).2.2 =
      .error (.connectionReturnError invalidReplyMsg) ∧
    (switch s ch pt (none : Option (List α))).2.2 =
      .error (.connectionReturnError invalidReplyMsg) ∧
    (click_video s x y w h (none : Option (List α))).2.2 =
      .error (.connectionReturnError invalidReplyMsg) ∧
    (get_compose_port s (some ([] : List α))).2.2 = .error .indexError ∧
    (get_encode_port s (some ([] : List α))).2.2 = .error .indexError ∧
    (get_audio_port s (some ([] : List α))).2.2 = .error .indexError ∧
    (get_preview_ports s (some [])).2.2 = .error .indexError ∧
    (get_composite_mode s (some ([] : List α))).2.2 = .error .indexError ∧
    (set_encode_mode s ch (some ([] : List α))).2.2 = .error .indexError ∧
    (new_record s (some ([] : List α))).2.2 = .error .indexError ∧
    (adjust_pip s x y w h (some ([] : List α))).2.2 = .error .indexError ∧
    (switch s ch pt (some ([] : List α))).2.2 = .error .indexError ∧
    (click_video s x y w h (some ([] : List α))).2.2 =
      .error (.connectionReturnError invalidReplyMsg) := by
  refine ⟨?_, ?_, ?_, ?_, ?_, ?_, ?_, ?_, ?_, ?_, ?_, ?_, ?_, ?_, ?_, ?_,
    ?_, ?_, ?_, ?_, ?_, ?_, ?_, ?_, ?_, ?_, ?_, ?_, ?_, ?_, ?_, ?_⟩
  · intro hm
    refine ⟨?_, ?_, ?_⟩ <;>
      simp [set_composite_mode, establish_connection, hm, catchAttr, unpackIdx,
        Except.map]
  · intro ports hp
    simp [get_preview_ports, unpackIdx, catchAttr, Bind.bind, Except.bind, hp]
  · intro msg hp
    simp [get_preview_ports, unpackIdx, catchAttr, Bind.bind, Except.bind, hp]
  all_goals
    simp [get_compose_port, get_encode_port, get_audio_port,
      get_preview_ports, get_composite_mode, set_encode_mode, new_record,
      adjust_pip, switch, click_video, establish_connection, catchAttr,
      catchAll, unpackIdx, Bind.bind, Except.bind]

/-- C1 witness: the amended theorem applied at concrete inputs: mode 2
with a one-element reply carrying 9, and the preview-port reply carrying
the parsable string with ports 1 and 4. -/
theorem C1_witness :
    (set_composite_mode (⟨0, none⟩ : CState) 2 (some [(9 : Int)])).2.2 =
      Except.ok (some 9) ∧
    (get_preview_ports (⟨0, none⟩ : CState)
        (some ["[(1,2,3),(4,5,6)]"])).2.2 = Except.ok [1, 4] :=
  ⟨((C1_unwrap_amended (⟨0, none⟩ : CState) (9 : Int) [] "[(1,2,3),(4,5,6)]"
      [] 2 0 0 0 0 0 0).1 (by decide)).1,
   (C1_unwrap_amended (⟨0, none⟩ : CState) (9 : Int) [] "[(1,2,3),(4,5,6)]"
      [] 2 0 0 0 0 0 0).2.1 [1, 4] rfl⟩

end GstSwitch
